import Mathlib

/-!
# Verification of the magnetar_game orbital core

A shallow embedding, in exact real arithmetic, of the orbital-mechanics core
of the `magnetar_game` repository:

* `OrbitalParameters.step_forward` — `OrbitalParameters::step_forward` from
  `magnetar_data/src/orbital.rs`;
* `Object.step_forward` — the recursive tree propagation from
  `magnetar_data/src/celestial.rs`;
* `calculate_true_anomaly` / `calculate_orbital_position` — the Kepler
  position solver from `magnetar-game/src/main.rs`;
* `parse_object` / `load_yaml` — the YAML tree loader from
  `magnetar_data/src/yaml_parser.rs`.

`f64` values are modelled as real numbers; Rust's `%` on `f64` (a truncated
remainder carrying the sign of the dividend) is modelled exactly by `rustRem`.
`std::time::Duration` is modelled by its non-negative length in seconds
(`Duration::as_secs_f64`).
-/

noncomputable section

namespace Magnetar

/-- The integer `n` used by Rust's floating-point `%`: the integral part of
`x`, rounded toward zero. -/
def truncToZero (x : ℝ) : ℤ := if 0 ≤ x then ⌊x⌋ else ⌈x⌉

/-- Rust's `%` on `f64`, in exact real arithmetic: `x - y * trunc (x / y)`.
The result carries the sign of the dividend `x`. -/
def rustRem (x y : ℝ) : ℝ := x - y * truncToZero (x / y)

/-- Mathematical reduction of `x` modulo `y` into `[0, y)` (for `y > 0`):
`x - y * ⌊x / y⌋`.  Used to state the spec's "reduce modulo one full turn so
the stored value stays in `[0, full_turn)`", to be compared with the code's
`rustRem`. -/
def modReduce (x y : ℝ) : ℝ := x - y * ⌊x / y⌋

/-- `OrbitalParameters` from `magnetar_data/src/orbital.rs`.  The `u16` field
`longitude_of_periapsis` is modelled as a natural number. -/
structure OrbitalParameters where
  semi_major_axis : ℝ
  eccentricity : ℝ
  longitude_of_periapsis : ℕ
  mean_anomaly : ℝ

/-- `OrbitalParameters::step_forward` from `magnetar_data/src/orbital.rs`:

```rust
if self.semi_major_axis == 0.0 { return; }
let time_seconds = time_step.as_secs_f64();
let mean_motion = (360.0) / (self.semi_major_axis.powf(1.5));
self.mean_anomaly += mean_motion * time_seconds;
self.mean_anomaly = self.mean_anomaly % 360.0;
```

`t` is `time_step.as_secs_f64()`; `powf` is real exponentiation `rpow`. -/
def OrbitalParameters.step_forward (p : OrbitalParameters) (t : ℝ) :
    OrbitalParameters :=
  if p.semi_major_axis = 0 then p
  else
    let mean_motion := 360 / p.semi_major_axis ^ (1.5 : ℝ)
    let m := p.mean_anomaly + mean_motion * t
    { p with mean_anomaly := rustRem m 360 }

/-- The claim's reading of the update formula: mean motion `360 / a^1.5`,
advance by `mean_motion * t`, reduce with the code's remainder operator. -/
def step_forward_formula (p : OrbitalParameters) (t : ℝ) : ℝ :=
  rustRem (p.mean_anomaly + (360 / p.semi_major_axis ^ (1.5 : ℝ)) * t) 360

/-! ## Basic lemmas about the remainder -/

theorem truncToZero_of_nonneg {x : ℝ} (hx : 0 ≤ x) : truncToZero x = ⌊x⌋ := by
  simp [truncToZero, hx]

theorem rustRem_eq_modReduce_of_nonneg {x y : ℝ} (hx : 0 ≤ x) (hy : 0 < y) :
    rustRem x y = modReduce x y := by
  unfold rustRem modReduce
  rw [truncToZero_of_nonneg (div_nonneg hx hy.le)]

theorem modReduce_nonneg {x y : ℝ} (hy : 0 < y) : 0 ≤ modReduce x y := by
  unfold modReduce
  have h : (⌊x / y⌋ : ℝ) ≤ x / y := Int.floor_le _
  have := mul_le_mul_of_nonneg_left h hy.le
  rw [mul_div_cancel₀ x hy.ne'] at this
  linarith

theorem modReduce_lt {x y : ℝ} (hy : 0 < y) : modReduce x y < y := by
  unfold modReduce
  have h : x / y < ⌊x / y⌋ + 1 := Int.lt_floor_add_one _
  have := mul_lt_mul_of_pos_left h hy
  rw [mul_div_cancel₀ x hy.ne'] at this
  linarith [this]

theorem rustRem_nonneg {x y : ℝ} (hx : 0 ≤ x) (hy : 0 < y) :
    0 ≤ rustRem x y := by
  rw [rustRem_eq_modReduce_of_nonneg hx hy]; exact modReduce_nonneg hy

theorem rustRem_lt {x y : ℝ} (hx : 0 ≤ x) (hy : 0 < y) : rustRem x y < y := by
  rw [rustRem_eq_modReduce_of_nonneg hx hy]; exact modReduce_lt hy

theorem rustRem_eq_self {x y : ℝ} (hy : 0 < y) (h1 : -y < x) (h2 : x < y) :
    rustRem x y = x := by
  have hz : truncToZero (x / y) = 0 := by
    unfold truncToZero
    by_cases hx : 0 ≤ x / y
    · rw [if_pos hx, Int.floor_eq_zero_iff]
      exact Set.mem_Ico.mpr ⟨hx, (div_lt_one hy).mpr h2⟩
    · rw [if_neg hx, Int.ceil_eq_zero_iff]
      refine Set.mem_Ioc.mpr ⟨?_, le_of_not_le hx⟩
      rw [lt_div_iff₀ hy]
      linarith
  simp [rustRem, hz]

theorem step_forward_of_sma_zero {p : OrbitalParameters}
    (h : p.semi_major_axis = 0) (t : ℝ) : p.step_forward t = p := by
  simp [OrbitalParameters.step_forward, h]

theorem step_forward_of_sma_ne {p : OrbitalParameters}
    (h : p.semi_major_axis ≠ 0) (t : ℝ) :
    p.step_forward t =
      { p with mean_anomaly :=
          rustRem (p.mean_anomaly + 360 / p.semi_major_axis ^ (1.5 : ℝ) * t) 360 } := by
  simp [OrbitalParameters.step_forward, h]

/-! ## Claims about `OrbitalParameters.step_forward` -/

/-- C1 counterexample: with `semi_major_axis = 1 > 0`, `mean_anomaly = -20`
and a zero elapsed duration, the code stores `-20` (Rust's `%` keeps the sign
of the dividend), while reducing `-20 + (360 / 1^1.5) * 0` modulo `360` gives
`340`; the two disagree. -/
theorem C1_step_forward_modulo_counterexample :
    (OrbitalParameters.step_forward ⟨1, 0, 0, -20⟩ 0).mean_anomaly = -20 ∧
    modReduce ((-20 : ℝ) + 360 / (1 : ℝ) ^ (1.5 : ℝ) * 0) 360 = 340 ∧
    ((-20 : ℝ) ≠ 340) := by
  refine ⟨?_, ?_, by norm_num⟩
  · rw [step_forward_of_sma_ne (by norm_num)]
    show rustRem ((-20 : ℝ) + 360 / (1 : ℝ) ^ (1.5 : ℝ) * 0) 360 = -20
    rw [Real.one_rpow, show (-20 : ℝ) + 360 / 1 * 0 = -20 by norm_num]
    exact rustRem_eq_self (by norm_num) (by norm_num) (by norm_num)
  · rw [Real.one_rpow, show (-20 : ℝ) + 360 / 1 * 0 = -20 by norm_num]
    unfold modReduce
    rw [show ⌊(-20 : ℝ) / 360⌋ = -1 by rw [Int.floor_eq_iff]; norm_num]
    norm_num

/-- C1 (amended): for every `OrbitalParameters` with `semi_major_axis > 0`
and every elapsed duration, `step_forward` computes mean motion as
`360 / semi_major_axis^1.5`, adds `mean_motion * elapsed_seconds` to
`mean_anomaly`, and reduces the result with the truncated remainder by `360`
(Rust's `%`, sign of the dividend); this coincides with reduction modulo
`360` into `[0, 360)` whenever the pre-reduction value is non-negative. -/
theorem C1_step_forward_formula (p : OrbitalParameters) (t : ℝ)
    (h : 0 < p.semi_major_axis) :
    (p.step_forward t).mean_anomaly = step_forward_formula p t ∧
    (0 ≤ p.mean_anomaly + 360 / p.semi_major_axis ^ (1.5 : ℝ) * t →
      step_forward_formula p t =
        modReduce (p.mean_anomaly + 360 / p.semi_major_axis ^ (1.5 : ℝ) * t) 360) := by
  constructor
  · rw [step_forward_of_sma_ne h.ne']
    rfl
  · intro hs
    unfold step_forward_formula
    exact rustRem_eq_modReduce_of_nonneg hs (by norm_num)

/-- C1 witness: the amended claim evaluated at `semi_major_axis = 1`,
`mean_anomaly = 5`, `t = 2`. -/
theorem C1_step_forward_formula_witness :
    (OrbitalParameters.step_forward ⟨1, 0, 0, 5⟩ 2).mean_anomaly =
      step_forward_formula ⟨1, 0, 0, 5⟩ 2 ∧
    (0 ≤ (5 : ℝ) + 360 / (1 : ℝ) ^ (1.5 : ℝ) * 2 →
      step_forward_formula ⟨1, 0, 0, 5⟩ 2 =
        modReduce ((5 : ℝ) + 360 / (1 : ℝ) ^ (1.5 : ℝ) * 2) 360) :=
  C1_step_forward_formula ⟨1, 0, 0, 5⟩ 2 (by norm_num)

/-- C2: at `semi_major_axis = 1`, `mean_anomaly = -10`, zero duration, the
code stores `-10` after `step_forward`, which is not in `[0, 360)`: the
stored value can stay negative, contradicting both the spec and the code's
own comment "Keep within 0 to 360 degrees". -/
theorem C2_range_violation :
    (OrbitalParameters.step_forward ⟨1, 0, 0, -10⟩ 0).mean_anomaly = -10 ∧
    ¬ (0 ≤ (OrbitalParameters.step_forward ⟨1, 0, 0, -10⟩ 0).mean_anomaly) := by
  have h : (OrbitalParameters.step_forward ⟨1, 0, 0, -10⟩ 0).mean_anomaly = -10 := by
    rw [step_forward_of_sma_ne (by norm_num)]
    show rustRem ((-10 : ℝ) + 360 / (1 : ℝ) ^ (1.5 : ℝ) * 0) 360 = -10
    rw [Real.one_rpow, show (-10 : ℝ) + 360 / 1 * 0 = -10 by norm_num]
    exact rustRem_eq_self (by norm_num) (by norm_num) (by norm_num)
  exact ⟨h, by rw [h]; norm_num⟩

/-- C3: for every `OrbitalParameters` with `semi_major_axis = 0` and every
elapsed duration, `step_forward` returns the parameters unchanged (the call
is a no-op on every field). -/
theorem C3_step_forward_noop_of_sma_zero (p : OrbitalParameters) (t : ℝ)
    (h : p.semi_major_axis = 0) : p.step_forward t = p :=
  step_forward_of_sma_zero h t

/-- C3 witness: the no-op at `⟨0, 0, 0, 5⟩` with duration `7`. -/
theorem C3_step_forward_noop_of_sma_zero_witness :
    OrbitalParameters.step_forward ⟨0, 0, 0, 5⟩ 7 = ⟨0, 0, 0, 5⟩ :=
  C3_step_forward_noop_of_sma_zero ⟨0, 0, 0, 5⟩ 7 rfl

/-- C9 counterexample: at `semi_major_axis = 1` and `mean_anomaly = 720`,
`step_forward` with zero duration stores `720 % 360 = 0 ≠ 720`: the
zero-duration step is not a no-op for out-of-range `mean_anomaly`. -/
theorem C9_zero_step_counterexample :
    (OrbitalParameters.step_forward ⟨1, 0, 0, 720⟩ 0).mean_anomaly = 0 ∧
    (720 : ℝ) ≠ 0 := by
  refine ⟨?_, by norm_num⟩
  rw [step_forward_of_sma_ne (by norm_num)]
  show rustRem ((720 : ℝ) + 360 / (1 : ℝ) ^ (1.5 : ℝ) * 0) 360 = 0
  rw [Real.one_rpow, show (720 : ℝ) + 360 / 1 * 0 = 720 by norm_num]
  unfold rustRem truncToZero
  rw [if_pos (by norm_num : (0 : ℝ) ≤ 720 / 360)]
  rw [show (720 : ℝ) / 360 = ((2 : ℤ) : ℝ) by norm_num, Int.floor_intCast]
  norm_num

/-- C9 (amended): `step_forward` with a zero duration is a no-op provided
`semi_major_axis = 0`, or `mean_anomaly` lies strictly between `-360` and
`360` (in particular for every normalized state); for `mean_anomaly` outside
that range the final `% 360` changes the stored value. -/
theorem C9_zero_step_noop (p : OrbitalParameters)
    (h : p.semi_major_axis = 0 ∨ (-360 < p.mean_anomaly ∧ p.mean_anomaly < 360)) :
    p.step_forward 0 = p := by
  rcases h with h | ⟨h1, h2⟩
  · exact step_forward_of_sma_zero h 0
  · by_cases hz : p.semi_major_axis = 0
    · exact step_forward_of_sma_zero hz 0
    · rw [step_forward_of_sma_ne hz, mul_zero, add_zero,
        rustRem_eq_self (by norm_num) h1 h2]

/-- C9 witness: the zero-duration no-op at `⟨2, 0, 0, 350⟩`. -/
theorem C9_zero_step_noop_witness :
    OrbitalParameters.step_forward ⟨2, 0, 0, 350⟩ 0 = ⟨2, 0, 0, 350⟩ :=
  C9_zero_step_noop ⟨2, 0, 0, 350⟩ (Or.inr ⟨by norm_num, by norm_num⟩)

/-- C10: if `mean_anomaly` lies in `[0, 360)` before the call then for every
non-negative `semi_major_axis` and every non-negative elapsed duration it
still lies in `[0, 360)` after `step_forward`: the normalized range is
preserved from any in-range starting state. -/
theorem C10_range_preserved (p : OrbitalParameters) (t : ℝ)
    (ha : 0 ≤ p.semi_major_axis) (h0 : 0 ≤ p.mean_anomaly)
    (h1 : p.mean_anomaly < 360) (ht : 0 ≤ t) :
    0 ≤ (p.step_forward t).mean_anomaly ∧ (p.step_forward t).mean_anomaly < 360 := by
  rcases eq_or_lt_of_le ha with hz | hpos
  · rw [step_forward_of_sma_zero hz.symm]
    exact ⟨h0, h1⟩
  · rw [step_forward_of_sma_ne hpos.ne']
    have hmm : 0 < 360 / p.semi_major_axis ^ (1.5 : ℝ) :=
      div_pos (by norm_num) (Real.rpow_pos_of_pos hpos _)
    have hs : 0 ≤ p.mean_anomaly + 360 / p.semi_major_axis ^ (1.5 : ℝ) * t :=
      add_nonneg h0 (mul_nonneg hmm.le ht)
    exact ⟨rustRem_nonneg hs (by norm_num), rustRem_lt hs (by norm_num)⟩

/-- C10 witness: range preservation at `⟨1, 0, 0, 100⟩` with duration `2`. -/
theorem C10_range_preserved_witness :
    0 ≤ (OrbitalParameters.step_forward ⟨1, 0, 0, 100⟩ 2).mean_anomaly ∧
    (OrbitalParameters.step_forward ⟨1, 0, 0, 100⟩ 2).mean_anomaly < 360 :=
  C10_range_preserved ⟨1, 0, 0, 100⟩ 2 (by norm_num) (by norm_num) (by norm_num)
    (by norm_num)

/-! ## The celestial object tree (`magnetar_data/src/celestial.rs`) -/

/-- `ObjectType` from `magnetar_data/src/celestial.rs`. -/
inductive ObjectType : Type where
  | Star : ObjectType
  | Rocky : ObjectType
  | Jovian : ObjectType
  | IceGiant : ObjectType
deriving DecidableEq

/-- `Object` from `magnetar_data/src/celestial.rs`.  The atmosphere
`HashMap<String, f64>` is modelled as an association list. -/
inductive Object : Type where
  | mk (name : String) (object_type : ObjectType) (mass : ℝ) (radius : ℝ)
      (orbital_params : OrbitalParameters) (atmosphere : List (String × ℝ))
      (children : List Object) : Object

def Object.name : Object → String
  | .mk n _ _ _ _ _ _ => n

def Object.object_type : Object → ObjectType
  | .mk _ ty _ _ _ _ _ => ty

def Object.mass : Object → ℝ
  | .mk _ _ m _ _ _ _ => m

def Object.radius : Object → ℝ
  | .mk _ _ _ r _ _ _ => r

def Object.orbital_params : Object → OrbitalParameters
  | .mk _ _ _ _ op _ _ => op

def Object.atmosphere : Object → List (String × ℝ)
  | .mk _ _ _ _ _ atm _ => atm

def Object.children : Object → List Object
  | .mk _ _ _ _ _ _ ch => ch

mutual

/-- `Object::step_forward` from `magnetar_data/src/celestial.rs`: step the
node's own orbital parameters, then each child in sequence order with the
same duration. -/
def Object.step_forward : Object → ℝ → Object
  | .mk n ty m r op atm ch, t =>
      .mk n ty m r (op.step_forward t) atm (stepChildren ch t)

/-- The `for child in self.children.iter_mut()` loop of `Object::step_forward`. -/
def stepChildren : List Object → ℝ → List Object
  | [], _ => []
  | c :: cs, t => c.step_forward t :: stepChildren cs t

end

mutual

/-- Replace the `mean_anomaly` of every node's orbital parameters by
`g` of those parameters, leaving every other field and the tree structure
untouched.  An observation used to state the frame property of
`Object::step_forward`. -/
def Object.mapAnomalies (g : OrbitalParameters → ℝ) : Object → Object
  | .mk n ty m r op atm ch =>
      .mk n ty m r
        ⟨op.semi_major_axis, op.eccentricity, op.longitude_of_periapsis, g op⟩
        atm (mapAnomaliesList g ch)

def mapAnomaliesList (g : OrbitalParameters → ℝ) : List Object → List Object
  | [] => []
  | c :: cs => c.mapAnomalies g :: mapAnomaliesList g cs

end

theorem OrbitalParameters.step_forward_fields (p : OrbitalParameters) (t : ℝ) :
    p.step_forward t =
      ⟨p.semi_major_axis, p.eccentricity, p.longitude_of_periapsis,
        (p.step_forward t).mean_anomaly⟩ := by
  by_cases h : p.semi_major_axis = 0
  · rw [step_forward_of_sma_zero h]
  · rw [step_forward_of_sma_ne h]

mutual

theorem step_forward_eq_mapAnomalies (o : Object) (t : ℝ) :
    o.step_forward t =
      o.mapAnomalies (fun p => (p.step_forward t).mean_anomaly) := by
  cases o with
  | mk n ty m r op atm ch =>
      rw [Object.step_forward, Object.mapAnomalies,
        stepChildren_eq_mapAnomaliesList ch t]
      rw [OrbitalParameters.step_forward_fields op t]

theorem stepChildren_eq_mapAnomaliesList (l : List Object) (t : ℝ) :
    stepChildren l t =
      mapAnomaliesList (fun p => (p.step_forward t).mean_anomaly) l := by
  cases l with
  | nil => rw [stepChildren, mapAnomaliesList]
  | cons c cs =>
      rw [stepChildren, mapAnomaliesList, step_forward_eq_mapAnomalies c t,
        stepChildren_eq_mapAnomaliesList cs t]

end

/-- C4: `Object::step_forward` applies the same elapsed duration to every
node's orbital parameters, recursively, and mutates only the `mean_anomaly`
fields: the result is the original tree with each node's `mean_anomaly`
replaced by the value `OrbitalParameters::step_forward` computes from that
node's own parameters; name, object type, mass, radius, semi-major axis,
eccentricity, longitude of periapsis, atmosphere and the children lists are
all unchanged. -/
theorem C4_step_forward_frame (o : Object) (t : ℝ) :
    o.step_forward t =
      o.mapAnomalies (fun p => (p.step_forward t).mean_anomaly) :=
  step_forward_eq_mapAnomalies o t

/-! ## The Kepler position solver (`magnetar-game/src/main.rs`) -/

/-- The Newton–Raphson loop of `calculate_true_anomaly`: solve
`E - e·sin E = M` for the eccentric anomaly, a fixed number of iterations,
seeded with `E₀ = M`. -/
def keplerIter (e M : ℝ) : ℕ → ℝ → ℝ
  | 0, E => E
  | n + 1, E =>
      keplerIter e M n (E - (E - e * Real.sin E - M) / (1 - e * Real.cos E))

/-- `calculate_true_anomaly` from `magnetar-game/src/main.rs`: five Newton
iterations, then the half-angle identity
`ν = 2·atan(√((1+e)/(1-e)) · tan(E/2))`. -/
def calculate_true_anomaly (mean_anomaly eccentricity : ℝ) : ℝ :=
  2 * Real.arctan (Real.sqrt ((1 + eccentricity) / (1 - eccentricity)) *
    Real.tan (keplerIter eccentricity mean_anomaly 5 mean_anomaly / 2))

/-- Rust's `f64::to_radians`: `x * (PI / 180)`. -/
def toRadians (x : ℝ) : ℝ := x * (Real.pi / 180)

/-- `calculate_orbital_position` from `magnetar-game/src/main.rs`, before the
final cast of the coordinates to `f32`: the planar `(x, y)` offset from the
focus.  The third `Vec3` coordinate is the constant `0` and is omitted. -/
def calculate_orbital_position (params : OrbitalParameters) : ℝ × ℝ :=
  let a := params.semi_major_axis
  let e := params.eccentricity
  let true_anomaly := calculate_true_anomaly (toRadians params.mean_anomaly) e
  let radius := a * (1 - e ^ 2) / (1 + e * Real.cos true_anomaly)
  (radius * Real.cos true_anomaly, radius * Real.sin true_anomaly)

/-- C5: for eccentricity `0` and `semi_major_axis > 0`, the computed position
lies at exact distance `semi_major_axis` from the focus:
`x² + y² = semi_major_axis²`, for every `mean_anomaly`. -/
theorem C5_circular_orbit_radius (p : OrbitalParameters)
    (he : p.eccentricity = 0) (ha : 0 < p.semi_major_axis) :
    (calculate_orbital_position p).1 ^ 2 + (calculate_orbital_position p).2 ^ 2 =
      p.semi_major_axis ^ 2 := by
  have h := Real.sin_sq_add_cos_sq
    (calculate_true_anomaly (toRadians p.mean_anomaly) 0)
  simp only [calculate_orbital_position, he]
  ring_nf
  nlinarith [h]

/-- C5 witness: the unit circular orbit `⟨1, 0, 0, 0⟩`. -/
theorem C5_circular_orbit_radius_witness :
    (calculate_orbital_position ⟨1, 0, 0, 0⟩).1 ^ 2 +
      (calculate_orbital_position ⟨1, 0, 0, 0⟩).2 ^ 2 = (1 : ℝ) ^ 2 :=
  C5_circular_orbit_radius ⟨1, 0, 0, 0⟩ rfl (by norm_num)

/-! ## The YAML tree loader (`magnetar_data/src/yaml_parser.rs`)

`serde_yaml::Value` is modelled by `Yaml`; mappings keep their entries as
association lists in document order.  YAML numbers (`i64`, `u64`, `f64`) all
answer `as_f64`, so they are modelled by one numeric constructor.  The
recursion of `parse_object` through `parentTo` is not structural on the
value, so it carries a fuel parameter bounding the recursion depth; any
parse of a tree of depth `< fuel` is unaffected by it. -/

/-- `serde_yaml::Value`. -/
inductive Yaml : Type where
  | null : Yaml
  | bool (b : Bool) : Yaml
  | num (x : ℝ) : Yaml
  | str (s : String) : Yaml
  | seq (items : List Yaml) : Yaml
  | map (entries : List (Yaml × Yaml)) : Yaml

/-- A mapping key equals a string index (only a `String` value can). -/
def keyMatches (k : Yaml) (key : String) : Bool :=
  match k with
  | .str s => s == key
  | _ => false

def lookupEntry : List (Yaml × Yaml) → String → Option Yaml
  | [], _ => none
  | (k, v) :: rest, key =>
      if keyMatches k key then some v else lookupEntry rest key

/-- `serde_yaml::Value::get` with a string index: a lookup on a mapping,
`None` on every other value. -/
def Yaml.get (v : Yaml) (key : String) : Option Yaml :=
  match v with
  | .map entries => lookupEntry entries key
  | _ => none

def Yaml.as_f64 : Yaml → Option ℝ
  | .num x => some x
  | _ => none

def Yaml.as_str : Yaml → Option String
  | .str s => some s
  | _ => none

def Yaml.as_mapping : Yaml → Option (List (Yaml × Yaml))
  | .map entries => some entries
  | _ => none

def Yaml.as_sequence : Yaml → Option (List Yaml)
  | .seq items => some items
  | _ => none

/-- Rust's saturating cast `f64 as u16` (`lop as u16` in `parse_object`):
truncate toward zero, clamp into `[0, 65535]`. -/
def toU16 (x : ℝ) : ℕ := (min 65535 (if 0 ≤ x then ⌊x⌋ else ⌈x⌉)).toNat

/-- The `match obj_type` arm of `parse_object`. -/
def objectTypeOfToken : String → Option ObjectType
  | "STAR" => some .Star
  | "ROCKY" => some .Rocky
  | "JOVIAN" => some .Jovian
  | "ICE_GIANT" => some .IceGiant
  | _ => none

/-- The all-zero `OrbitalParameters` substituted when any orbital field is
missing (`orbital_params.unwrap_or(...)` in `parse_object`). -/
def zeroOrbital : OrbitalParameters := ⟨0, 0, 0, 0⟩

/-- The atmosphere mapping: keep the entries whose key is a string and whose
value is numeric (`k.as_str().zip(v.as_f64())`), drop the rest. -/
def atmosphereEntries (entries : List (Yaml × Yaml)) : List (String × ℝ) :=
  entries.filterMap fun kv =>
    kv.1.as_str.bind fun k => kv.2.as_f64.map fun x => (k, x)

/-- `parse_object` from `magnetar_data/src/yaml_parser.rs`, with a fuel
parameter bounding the `parentTo` recursion depth.  Field checks happen in
the source's order: `type` (as a string), `mass`, `radius`, then the group of
four orbital fields, atmosphere and children (none of which can fail), and
finally the object-type token match. -/
def parse_object : ℕ → String → Yaml → Except String Object
  | 0, _, _ => .error "recursion depth exceeded"
  | fuel + 1, name, value =>
    match (value.get "type").bind Yaml.as_str with
    | none => .error (name ++ " : Missing object type")
    | some obj_type =>
      match (value.get "mass").bind Yaml.as_f64 with
      | none => .error "Missing mass"
      | some mass =>
        match (value.get "radius").bind Yaml.as_f64 with
        | none => .error "Missing radius"
        | some radius =>
          let orbital_params : Option OrbitalParameters :=
            match (value.get "semi-major-axis").bind Yaml.as_f64,
                (value.get "eccentricity").bind Yaml.as_f64,
                (value.get "longitude-of-periapsis").bind Yaml.as_f64,
                (value.get "mean-anomaly").bind Yaml.as_f64 with
            | some sma, some ecc, some lop, some ma =>
                some ⟨sma, ecc, toU16 lop, ma⟩
            | _, _, _, _ => none
          let atmosphere :=
            (((value.get "atmosphere").bind Yaml.as_mapping).map
              atmosphereEntries).getD []
          let children :=
            (((value.get "parentTo").bind Yaml.as_sequence).map fun s =>
              s.filterMap fun child =>
                child.as_mapping.bind fun m =>
                  m.head?.bind fun kv =>
                    kv.1.as_str.bind fun cn =>
                      (parse_object fuel cn kv.2).toOption).getD []
          match objectTypeOfToken obj_type with
          | none => .error "Invalid object type"
          | some ty =>
              .ok (.mk name ty mass radius (orbital_params.getD zeroOrbital)
                atmosphere children)

/-- One entry of the `parentTo` loop: a single-key mapping whose key is a
string, recursively parsed; `None` (the entry is dropped) on any failure. -/
def parse_child (fuel : ℕ) (child : Yaml) : Option Object :=
  child.as_mapping.bind fun m =>
    m.head?.bind fun kv =>
      kv.1.as_str.bind fun cn => (parse_object fuel cn kv.2).toOption

def lookupDoc : List (String × Yaml) → String → Option Yaml
  | [], _ => none
  | (k, v) :: rest, key => if k == key then some v else lookupDoc rest key

/-- `load_yaml` from `magnetar_data/src/yaml_parser.rs`, modelled after the
file has been read and deserialized: the top-level
`HashMap<String, serde_yaml::Value>` is an association list in iteration
order, so `into_iter().next()` is `head?`. -/
def load_yaml (fuel : ℕ) (doc : List (String × Yaml)) : Except String Object :=
  match lookupDoc doc "StarSystem" with
  | some star_system =>
    match star_system.as_mapping with
    | some entries =>
      match entries.head? with
      | some kv => parse_object fuel (kv.1.as_str.getD "Unnamed") kv.2
      | none => .error "Malformed StarSystem definition"
    | none => .error "Malformed StarSystem definition"
  | none =>
    match doc.head? with
    | some kv => parse_object fuel kv.1 kv.2
    | none => .error "No valid object found in YAML"

/-- The root entry `load_yaml` selects: the first entry nested under a
`StarSystem` wrapper when one is present, the first top-level entry
otherwise. -/
def rootOf (doc : List (String × Yaml)) : Option (String × Yaml) :=
  match lookupDoc doc "StarSystem" with
  | some star_system =>
    (star_system.as_mapping.bind List.head?).map fun kv =>
      (kv.1.as_str.getD "Unnamed", kv.2)
  | none => doc.head?

theorem load_yaml_rootOf {doc : List (String × Yaml)} {n : String} {v : Yaml}
    (h : rootOf doc = some (n, v)) (fuel : ℕ) :
    load_yaml fuel doc = parse_object fuel n v := by
  unfold load_yaml
  unfold rootOf at h
  cases hss : lookupDoc doc "StarSystem" with
  | none =>
      simp only [hss] at h ⊢
      rw [h]
  | some ss =>
      simp only [hss] at h ⊢
      cases hm : ss.as_mapping with
      | none => simp [hm] at h
      | some entries =>
          cases hh : entries.head? with
          | none => simp [hm, hh] at h
          | some kv =>
              simp only [hm, hh, Option.some_bind, Option.map_some'] at h
              simp only [hm, hh]
              obtain ⟨h1, h2⟩ := Prod.mk.injEq .. ▸ Option.some.inj h
              rw [h1, h2]

/-- The one-step unfolding of `parse_object`, its inlined `parentTo` entry
parser written as `parse_child`. -/
theorem parse_object_succ (fuel : ℕ) (name : String) (v : Yaml) :
    parse_object (fuel + 1) name v =
      match (v.get "type").bind Yaml.as_str with
      | none => .error (name ++ " : Missing object type")
      | some obj_type =>
        match (v.get "mass").bind Yaml.as_f64 with
        | none => .error "Missing mass"
        | some mass =>
          match (v.get "radius").bind Yaml.as_f64 with
          | none => .error "Missing radius"
          | some radius =>
            match objectTypeOfToken obj_type with
            | none => .error "Invalid object type"
            | some ty =>
                .ok (.mk name ty mass radius
                  ((match (v.get "semi-major-axis").bind Yaml.as_f64,
                      (v.get "eccentricity").bind Yaml.as_f64,
                      (v.get "longitude-of-periapsis").bind Yaml.as_f64,
                      (v.get "mean-anomaly").bind Yaml.as_f64 with
                    | some sma, some ecc, some lop, some ma =>
                        some (OrbitalParameters.mk sma ecc (toU16 lop) ma)
                    | _, _, _, _ => none).getD zeroOrbital)
                  ((((v.get "atmosphere").bind Yaml.as_mapping).map
                    atmosphereEntries).getD [])
                  ((((v.get "parentTo").bind Yaml.as_sequence).map fun s =>
                    s.filterMap (parse_child fuel)).getD [])) := rfl

/-- C6: whenever the required fields parse (so the node parses at all), the
node's orbital state is built from `semi-major-axis`, `eccentricity`,
`longitude-of-periapsis` and `mean-anomaly` if and only if all four are
present as numbers; if any of the four is missing the all-zero orbital state
is substituted and the parse still succeeds. -/
theorem C6_orbital_fields_all_or_nothing (fuel : ℕ) (name : String) (v : Yaml)
    (tok : String) (ty : ObjectType)
    (hty : (v.get "type").bind Yaml.as_str = some tok)
    (htok : objectTypeOfToken tok = some ty)
    (hm : ∃ m, (v.get "mass").bind Yaml.as_f64 = some m)
    (hr : ∃ r, (v.get "radius").bind Yaml.as_f64 = some r) :
    ∃ obj, parse_object (fuel + 1) name v = .ok obj ∧
      obj.orbital_params =
        (match (v.get "semi-major-axis").bind Yaml.as_f64,
            (v.get "eccentricity").bind Yaml.as_f64,
            (v.get "longitude-of-periapsis").bind Yaml.as_f64,
            (v.get "mean-anomaly").bind Yaml.as_f64 with
          | some sma, some ecc, some lop, some ma =>
              OrbitalParameters.mk sma ecc (toU16 lop) ma
          | _, _, _, _ => zeroOrbital) := by
  obtain ⟨m, hm⟩ := hm
  obtain ⟨r, hr⟩ := hr
  rw [parse_object_succ]
  simp only [hty, hm, hr, htok]
  refine ⟨_, rfl, ?_⟩
  simp only [Object.orbital_params]
  rcases (v.get "semi-major-axis").bind Yaml.as_f64 with _ | sma <;>
    rcases (v.get "eccentricity").bind Yaml.as_f64 with _ | ecc <;>
    rcases (v.get "longitude-of-periapsis").bind Yaml.as_f64 with _ | lop <;>
    rcases (v.get "mean-anomaly").bind Yaml.as_f64 with _ | ma <;> rfl

/-- C6 witness: a root with only the required fields gets the all-zero
orbital state and still parses. -/
theorem C6_orbital_fields_all_or_nothing_witness :
    ∃ obj, parse_object 1 "Sun"
        (Yaml.map [(.str "type", .str "STAR"), (.str "mass", .num 1),
          (.str "radius", .num 2)]) = .ok obj ∧
      obj.orbital_params = zeroOrbital :=
  C6_orbital_fields_all_or_nothing 0 "Sun" _ "STAR" .Star rfl rfl ⟨1, rfl⟩
    ⟨2, rfl⟩

/-- C7: when the root object the loader selects is missing its numeric
`mass` field (or its numeric `radius` field), `load_yaml` fails with the
matching missing-field error and returns no tree (the first message covers
the case that `type` is missing too — also a missing required field). -/
theorem C7_missing_required_field_aborts (fuel : ℕ)
    (doc : List (String × Yaml)) (n : String) (v : Yaml)
    (hroot : rootOf doc = some (n, v))
    (hmiss : (v.get "mass").bind Yaml.as_f64 = none ∨
      (v.get "radius").bind Yaml.as_f64 = none) :
    load_yaml (fuel + 1) doc = .error (n ++ " : Missing object type") ∨
    load_yaml (fuel + 1) doc = .error "Missing mass" ∨
    load_yaml (fuel + 1) doc = .error "Missing radius" := by
  rw [load_yaml_rootOf hroot, parse_object_succ]
  rcases hty : (v.get "type").bind Yaml.as_str with _ | tok
  · simp only [hty]
    left
    trivial
  · simp only [hty]
    rcases hmiss with hmx | hrx
    · simp only [hmx]
      right; left
      trivial
    · cases hmm : (v.get "mass").bind Yaml.as_f64 with
      | none =>
          simp only [hmm]
          right; left
          trivial
      | some m =>
          simp only [hmm, hrx]
          right; right
          trivial

/-- C7 witness: a root with `type` but no `mass` fails with "Missing mass". -/
theorem C7_missing_required_field_aborts_witness :
    load_yaml 1 [("Earth", Yaml.map [(.str "type", .str "ROCKY")])] =
      .error ("Earth" ++ " : Missing object type") ∨
    load_yaml 1 [("Earth", Yaml.map [(.str "type", .str "ROCKY")])] =
      .error "Missing mass" ∨
    load_yaml 1 [("Earth", Yaml.map [(.str "type", .str "ROCKY")])] =
      .error "Missing radius" :=
  C7_missing_required_field_aborts 0
    [("Earth", Yaml.map [(.str "type", .str "ROCKY")])] "Earth" _ rfl
    (Or.inl rfl)

/-- C8: a `parentTo` entry that fails to parse (`parse_child` returns
`none`) is silently dropped: the parse of the parent still succeeds and the
children list is exactly the parsed siblings on its left and right in
sequence order. -/
theorem C8_failed_child_dropped (fuel : ℕ) (name : String) (v : Yaml)
    (tok : String) (ty : ObjectType)
    (hty : (v.get "type").bind Yaml.as_str = some tok)
    (htok : objectTypeOfToken tok = some ty)
    (hm : ∃ m, (v.get "mass").bind Yaml.as_f64 = some m)
    (hr : ∃ r, (v.get "radius").bind Yaml.as_f64 = some r)
    (l₁ l₂ : List Yaml) (bad : Yaml)
    (hpt : v.get "parentTo" = some (Yaml.seq (l₁ ++ bad :: l₂)))
    (hbad : parse_child fuel bad = none) :
    ∃ obj, parse_object (fuel + 1) name v = .ok obj ∧
      obj.children =
        l₁.filterMap (parse_child fuel) ++ l₂.filterMap (parse_child fuel) := by
  obtain ⟨m, hm⟩ := hm
  obtain ⟨r, hr⟩ := hr
  rw [parse_object_succ]
  simp only [hty, hm, hr, htok, hpt]
  refine ⟨_, rfl, ?_⟩
  simp only [Object.children, Yaml.as_sequence, Option.some_bind,
    Option.map_some', Option.getD_some]
  simp [List.filterMap_append, List.filterMap_cons, hbad]

/-- C8 witness: a malformed child (no `type`) between valid data is dropped
while its sibling "Moon" is kept and the root "Sun" still parses. -/
theorem C8_failed_child_dropped_witness :
    ∃ obj, parse_object 2 "Sun"
        (Yaml.map [(.str "type", .str "STAR"), (.str "mass", .num 1),
          (.str "radius", .num 2),
          (.str "parentTo", Yaml.seq
            [Yaml.map [(.str "Moon", Yaml.map [(.str "type", .str "ROCKY"),
              (.str "mass", .num 1), (.str "radius", .num 1)])],
             Yaml.map [(.str "X", Yaml.map [(.str "mass", .num 1)])]])]) =
        .ok obj ∧
      obj.children = [.mk "Moon" .Rocky 1 1 zeroOrbital [] []] :=
  C8_failed_child_dropped 1 "Sun"
    (Yaml.map [(.str "type", .str "STAR"), (.str "mass", .num 1),
      (.str "radius", .num 2),
      (.str "parentTo", Yaml.seq
        [Yaml.map [(.str "Moon", Yaml.map [(.str "type", .str "ROCKY"),
          (.str "mass", .num 1), (.str "radius", .num 1)])],
         Yaml.map [(.str "X", Yaml.map [(.str "mass", .num 1)])]])])
    "STAR" .Star rfl rfl ⟨1, rfl⟩ ⟨2, rfl⟩
    [Yaml.map [(.str "Moon", Yaml.map [(.str "type", .str "ROCKY"),
      (.str "mass", .num 1), (.str "radius", .num 1)])]]
    [] (Yaml.map [(.str "X", Yaml.map [(.str "mass", .num 1)])]) rfl rfl

end Magnetar
